import Mathlib

/-!
Shallow embedding of `src/app.py` (Mergington High School API, FastAPI).

The Python module keeps two global in-memory stores:
  * `TEACHERS` : dict username -> plaintext password, loaded from teachers.json
    at startup (absent file gives an empty dict);
  * `activities` : dict activity name -> activity record.
We model both as association lists with Python-dict lookup (`List.lookup`;
keys are unique in a Python dict literal, so first-match lookup agrees).

Route handlers become pure functions returning `Except HTTPException r`
mirroring `raise HTTPException(...)` on the error paths.  The FastAPI
dependency `Depends(require_teacher)` runs before the handler body, so each
guarded handler first consults `require_teacher` and propagates its error.

A faithfulness note on `unregister_from_activity` (app.py lines 141-143):
its body consists of the docstring only — the code that validates the
activity, checks membership and removes the participant (app.py lines
175-191) sits after the unconditional `return` of the `me` handler and is
unreachable.  So the deployed handler performs no checks beyond the
authorization dependency, mutates nothing, and returns `None`
(HTTP 200 with a `null` body).  The embedding reproduces exactly that.
-/

/-- Python `HTTPException(status_code=..., detail=...)`. -/
structure HTTPException where
  status_code : Nat
  detail : String
deriving Repr, DecidableEq

/-- One entry of the `activities` dict: description, schedule,
max_participants and the participants list (emails, in signup order). -/
structure Activity where
  description : String
  schedule : String
  max_participants : Nat
  participants : List String
deriving Repr, DecidableEq

/-- The activity registry: Python dict from activity name to record. -/
abbrev Registry := List (String × Activity)

/-- The teacher directory `TEACHERS`: Python dict username -> password. -/
abbrev Teachers := List (String × String)

/-- Python `d.get(k, default)` on a string-valued dict. -/
def pyGet (d : List (String × String)) (k : String) (default : String) : String :=
  (d.lookup k).getD default

/-- Character-list core of Python `str.strip()`: drop whitespace from the
front, then from the back (`Char.isWhitespace` covers the ASCII whitespace
relevant to the claims). -/
def stripChars (cs : List Char) : List Char :=
  ((cs.dropWhile Char.isWhitespace).reverse.dropWhile Char.isWhitespace).reverse

/-- Python `s.strip()`. -/
def pyStrip (s : String) : String := ⟨stripChars s.data⟩

/-- `require_teacher` (app.py lines 42-47): read the `session_user` cookie;
`if not user or user not in TEACHERS` raise 401, else return the username.
Python's `not user` is true for a missing cookie and for the empty string. -/
def require_teacher (teachers : Teachers) (session_user : Option String) :
    Except HTTPException String :=
  match session_user with
  | none => .error ⟨401, "Teacher login required"⟩
  | some user =>
    if user = "" then .error ⟨401, "Teacher login required"⟩
    else
      match teachers.lookup user with
      | none => .error ⟨401, "Teacher login required"⟩
      | some _ => .ok user

/-- Replace the record stored under `name` (Python mutates the dict entry in
place, so keys and order are unchanged). -/
def updateReg (reg : Registry) (name : String) (a : Activity) : Registry :=
  reg.map (fun p => if p.1 = name then (name, a) else p)

/-- `signup_for_activity` (app.py lines 119-138): after the authorization
dependency, 404 on unknown activity, 400 if the email is already a
participant, otherwise append the email and return the confirmation. -/
def signup_for_activity (teachers : Teachers) (reg : Registry)
    (activity_name email : String) (session_user : Option String) :
    Except HTTPException (String × Registry) :=
  match require_teacher teachers session_user with
  | .error e => .error e
  | .ok _teacher =>
    match reg.lookup activity_name with
    | none => .error ⟨404, "Activity not found"⟩
    | some activity =>
      if email ∈ activity.participants then
        .error ⟨400, "Student is already signed up"⟩
      else
        .ok ("Signed up " ++ email ++ " for " ++ activity_name,
          updateReg reg activity_name
            { activity with participants := activity.participants ++ [email] })

/-- `unregister_from_activity` (app.py lines 141-143) as deployed: the body
is the docstring alone, so after the authorization dependency the handler
returns `None` (modelled `Option.none`) and the registry is untouched.  The
intended body (app.py lines 175-191) is unreachable dead code inside `me`. -/
def unregister_from_activity (teachers : Teachers) (reg : Registry)
    (activity_name email : String) (session_user : Option String) :
    Except HTTPException (Option String × Registry) :=
  match require_teacher teachers session_user with
  | .error e => .error e
  | .ok _teacher => .ok (none, reg)

/-- Successful `/login` response: JSON body fields plus the `session_user`
cookie the response sets. -/
structure LoginOk where
  message : String
  username : String
  set_cookie : Option String
deriving Repr, DecidableEq

/-- `login` (app.py lines 144-158): strip the submitted username, keep the
password verbatim; on `username in TEACHERS and TEACHERS[username] ==
password` return success and set the cookie, otherwise raise 401. -/
def login (teachers : Teachers) (credentials : List (String × String)) :
    Except HTTPException LoginOk :=
  let username := pyStrip (pyGet credentials "username" "")
  let password := pyGet credentials "password" ""
  match teachers.lookup username with
  | some pw =>
    if pw = password then
      .ok ⟨"Login successful", username, some username⟩
    else .error ⟨401, "Invalid credentials"⟩
  | none => .error ⟨401, "Invalid credentials"⟩

/-- `/logout` response: body message, HTTP status (FastAPI `Response`
default 200) and whether `delete_cookie("session_user")` was issued. -/
structure LogoutResponse where
  status_code : Nat
  message : String
  delete_cookie : Bool
deriving Repr, DecidableEq

/-- `logout` (app.py lines 161-165): unconditionally return "Logged out"
and clear the cookie; the handler reads no request data and raises
nothing (its Lean type is not `Except`). -/
def logout : LogoutResponse := ⟨200, "Logged out", true⟩

/-- `/me` response body. -/
structure MeResponse where
  authenticated : Bool
  username : Option String
deriving Repr, DecidableEq

/-- `me` (app.py lines 168-173): `if user and user in TEACHERS` report the
username, else `authenticated: False`.  (Everything after the second
`return` is unreachable.) -/
def me (teachers : Teachers) (session_user : Option String) : MeResponse :=
  match session_user with
  | none => ⟨false, none⟩
  | some user =>
    if user = "" then ⟨false, none⟩
    else
      match teachers.lookup user with
      | some _ => ⟨true, some user⟩
      | none => ⟨false, none⟩

/-- The HTTP requests the API serves, with the data each handler reads. -/
inductive Request where
  | getActivities
  | signup (activity_name email : String) (session_user : Option String)
  | unregister (activity_name email : String) (session_user : Option String)
  | login (credentials : List (String × String))
  | logout (session_user : Option String)
  | me (session_user : Option String)

/-- Effect of one request on the only mutable store, the activity registry
(`TEACHERS` is written nowhere after startup).  Only a successful signup
changes it; every error path and every other handler leaves it as is. -/
def step (teachers : Teachers) (reg : Registry) : Request → Registry
  | .getActivities => reg
  | .signup activity_name email session_user =>
    match signup_for_activity teachers reg activity_name email session_user with
    | .ok (_, reg2) => reg2
    | .error _ => reg
  | .unregister activity_name email session_user =>
    match unregister_from_activity teachers reg activity_name email session_user with
    | .ok (_, reg2) => reg2
    | .error _ => reg
  | .login _ => reg
  | .logout _ => reg
  | .me _ => reg

/-- The initial `activities` dict (app.py lines 51-106). -/
def activities : Registry :=
  [ ("Chess Club",
      { description := "Learn strategies and compete in chess tournaments",
        schedule := "Fridays, 3:30 PM - 5:00 PM",
        max_participants := 12,
        participants := ["michael@mergington.edu", "daniel@mergington.edu"] }),
    ("Programming Class",
      { description := "Learn programming fundamentals and build software projects",
        schedule := "Tuesdays and Thursdays, 3:30 PM - 4:30 PM",
        max_participants := 20,
        participants := ["emma@mergington.edu", "sophia@mergington.edu"] }),
    ("Gym Class",
      { description := "Physical education and sports activities",
        schedule := "Mondays, Wednesdays, Fridays, 2:00 PM - 3:00 PM",
        max_participants := 30,
        participants := ["john@mergington.edu", "olivia@mergington.edu"] }),
    ("Soccer Team",
      { description := "Join the school soccer team and compete in matches",
        schedule := "Tuesdays and Thursdays, 4:00 PM - 5:30 PM",
        max_participants := 22,
        participants := ["liam@mergington.edu", "noah@mergington.edu"] }),
    ("Basketball Team",
      { description := "Practice and play basketball with the school team",
        schedule := "Wednesdays and Fridays, 3:30 PM - 5:00 PM",
        max_participants := 15,
        participants := ["ava@mergington.edu", "mia@mergington.edu"] }),
    ("Art Club",
      { description := "Explore your creativity through painting and drawing",
        schedule := "Thursdays, 3:30 PM - 5:00 PM",
        max_participants := 15,
        participants := ["amelia@mergington.edu", "harper@mergington.edu"] }),
    ("Drama Club",
      { description := "Act, direct, and produce plays and performances",
        schedule := "Mondays and Wednesdays, 4:00 PM - 5:30 PM",
        max_participants := 20,
        participants := ["ella@mergington.edu", "scarlett@mergington.edu"] }),
    ("Math Club",
      { description := "Solve challenging problems and participate in math competitions",
        schedule := "Tuesdays, 3:30 PM - 4:30 PM",
        max_participants := 10,
        participants := ["james@mergington.edu", "benjamin@mergington.edu"] }),
    ("Debate Team",
      { description := "Develop public speaking and argumentation skills",
        schedule := "Fridays, 4:00 PM - 5:30 PM",
        max_participants := 12,
        participants := ["charlotte@mergington.edu", "henry@mergington.edu"] }) ]

/-- The invariant of claim C6: every activity's participants list is
duplicate-free (each email appears at most once). -/
abbrev RegNodup (reg : Registry) : Prop := ∀ p ∈ reg, p.2.participants.Nodup

/-! ### Registry helper lemmas -/

/-- A successful dict lookup exhibits a member of the association list. -/
theorem mem_of_lookup_eq_some {l : List (String × Activity)} {k : String} {b : Activity}
    (h : l.lookup k = some b) : (k, b) ∈ l := by
  rcases List.lookup_eq_some_iff.mp h with ⟨l₁, l₂, rfl, h₁⟩
  simp

/-- Updating the record stored under a present key makes lookup return the
new record. -/
theorem lookup_updateReg_self {reg : Registry} {name : String} {a : Activity} (b : Activity)
    (h : reg.lookup name = some a) :
    (updateReg reg name b).lookup name = some b := by
  induction reg with
  | nil => simp at h
  | cons p t ih =>
    obtain ⟨k, v⟩ := p
    by_cases hk : k = name
    · subst hk
      simp [updateReg, List.lookup_cons]
    · have hbeq : (name == k) = false := by
        simp [beq_eq_false_iff_ne]
        exact fun hn => hk hn.symm
      have ht : t.lookup name = some a := by
        rw [List.lookup_cons, hbeq] at h
        exact h
      have := ih ht
      simp only [updateReg, List.map_cons, if_neg hk] at *
      rw [List.lookup_cons, hbeq]
      exact this

/-- Every entry of an updated registry is the new record or an old entry. -/
theorem mem_updateReg {reg : Registry} {name : String} {b : Activity} {p : String × Activity}
    (hp : p ∈ updateReg reg name b) : p = (name, b) ∨ p ∈ reg := by
  unfold updateReg at hp
  rcases List.mem_map.mp hp with ⟨q, hq, rfl⟩
  by_cases h : q.1 = name
  · exact Or.inl (by simp [h])
  · exact Or.inr (by simp only [if_neg h]; exact hq)

/-- Inversion of a successful signup: the activity was present, the email
was not yet registered, and the new registry appends the email to that
activity's list. -/
theorem signup_ok_inv {teachers : Teachers} {reg : Registry} {an email : String}
    {cookie : Option String} {msg : String} {reg2 : Registry}
    (h : signup_for_activity teachers reg an email cookie = .ok (msg, reg2)) :
    ∃ a, reg.lookup an = some a ∧ email ∉ a.participants ∧
      reg2 = updateReg reg an { a with participants := a.participants ++ [email] } := by
  unfold signup_for_activity at h
  cases hrt : require_teacher teachers cookie with
  | error e => rw [hrt] at h; simp at h
  | ok u =>
    rw [hrt] at h
    cases hlk : reg.lookup an with
    | none => rw [hlk] at h; simp at h
    | some a =>
      rw [hlk] at h
      by_cases hm : email ∈ a.participants
      · simp only [if_pos hm] at h
        exact Except.noConfusion h
      · simp only [if_neg hm, Except.ok.injEq, Prod.mk.injEq] at h
        exact ⟨a, rfl, hm, h.2.symm⟩

/-- C1: the deployed unregister handler has an empty body.  With a valid
session, unregistering a currently registered email returns HTTP 200 with a
null body — no confirmation message — and leaves the registry unchanged
(the email is NOT removed); unregistering an absent email also returns 200
instead of the claimed Conflict 400.  This evaluates the code at the
failing inputs for the code_bug verdict on the claim. -/
theorem C1_unregister_handler_empty :
    activities.lookup "Chess Club"
      = some ⟨"Learn strategies and compete in chess tournaments",
          "Fridays, 3:30 PM - 5:00 PM", 12,
          ["michael@mergington.edu", "daniel@mergington.edu"]⟩
    ∧ unregister_from_activity [("anna", "pw1")] activities "Chess Club"
        "michael@mergington.edu" (some "anna") = .ok (none, activities)
    ∧ unregister_from_activity [("anna", "pw1")] activities "Chess Club"
        "absent@mergington.edu" (some "anna") = .ok (none, activities) :=
  ⟨rfl, rfl, rfl⟩

/-- C2: with a valid session, signing up an email that is not yet a
participant of a known activity returns the confirmation message and a
registry in which the email occurs exactly once in that activity's list;
repeating the same signup then fails with Conflict (HTTP 400). -/
theorem C2_signup_adds_once (teachers : Teachers) (reg : Registry)
    (activity_name email : String) (cookie : Option String) (a : Activity) (u : String)
    (hauth : require_teacher teachers cookie = .ok u)
    (hreg : reg.lookup activity_name = some a)
    (hmem : email ∉ a.participants) :
    ∃ reg2,
      signup_for_activity teachers reg activity_name email cookie
        = .ok ("Signed up " ++ email ++ " for " ++ activity_name, reg2)
      ∧ (∃ a2, reg2.lookup activity_name = some a2 ∧ a2.participants.count email = 1)
      ∧ signup_for_activity teachers reg2 activity_name email cookie
          = .error ⟨400, "Student is already signed up"⟩ := by
  refine ⟨updateReg reg activity_name
    { a with participants := a.participants ++ [email] }, ?_, ?_, ?_⟩
  · unfold signup_for_activity
    rw [hauth, hreg]
    simp only [if_neg hmem]
  · refine ⟨_, lookup_updateReg_self _ hreg, ?_⟩
    simp [List.count_append, List.count_eq_zero_of_not_mem hmem]
  · have hm2 : email ∈ a.participants ++ [email] := by simp
    unfold signup_for_activity
    rw [hauth, lookup_updateReg_self _ hreg]
    simp only [if_pos hm2]

/-- Witness for C2 at concrete inputs: teacher anna signs a new email up
for Chess Club. -/
theorem C2_signup_adds_once_witness :
    ∃ reg2,
      signup_for_activity [("anna", "pw1")] activities "Chess Club"
        "new@mergington.edu" (some "anna")
        = .ok ("Signed up " ++ "new@mergington.edu" ++ " for " ++ "Chess Club", reg2)
      ∧ (∃ a2, reg2.lookup "Chess Club" = some a2
          ∧ a2.participants.count "new@mergington.edu" = 1)
      ∧ signup_for_activity [("anna", "pw1")] reg2 "Chess Club"
          "new@mergington.edu" (some "anna")
          = .error ⟨400, "Student is already signed up"⟩ :=
  C2_signup_adds_once [("anna", "pw1")] activities "Chess Club" "new@mergington.edu"
    (some "anna")
    ⟨"Learn strategies and compete in chess tournaments", "Fridays, 3:30 PM - 5:00 PM",
      12, ["michael@mergington.edu", "daniel@mergington.edu"]⟩
    "anna" rfl rfl (by decide)

/-- C7: capacity is never enforced — the signup handler never reads
max_participants, so with a valid session a new email is appended even when
the list is already at or over capacity. -/
theorem C7_capacity_not_enforced (teachers : Teachers) (reg : Registry)
    (activity_name email : String) (cookie : Option String) (a : Activity) (u : String)
    (hauth : require_teacher teachers cookie = .ok u)
    (hreg : reg.lookup activity_name = some a)
    (hmem : email ∉ a.participants)
    (hcap : a.max_participants ≤ a.participants.length) :
    signup_for_activity teachers reg activity_name email cookie
      = .ok ("Signed up " ++ email ++ " for " ++ activity_name,
          updateReg reg activity_name
            { a with participants := a.participants ++ [email] }) := by
  unfold signup_for_activity
  rw [hauth, hreg]
  simp only [if_neg hmem]

/-- C3 counterexample: the claim promises NotFound for unknown activities
for every request, with or without a valid session, for both endpoints.
At these explicit inputs the code disagrees twice: an unauthenticated
signup on the unknown activity fails with 401 (the dependency runs before
the activity check), and an authorized unregister on the unknown activity
returns 200 (its handler body is empty and never checks the activity). -/
theorem C3_counterexample :
    activities.lookup "No Such Club" = none
    ∧ signup_for_activity [("anna", "pw1")] activities "No Such Club"
        "kid@mergington.edu" none = .error ⟨401, "Teacher login required"⟩
    ∧ unregister_from_activity [("anna", "pw1")] activities "No Such Club"
        "kid@mergington.edu" (some "anna") = .ok (none, activities) :=
  ⟨rfl, rfl, rfl⟩

/-- C3 (amended): for an activity name not in the registry, a signup
request that passes the session guard fails with NotFound (HTTP 404); the
unregister handler, whose body is empty, returns success without checking
the activity; and when the session guard rejects the cookie, both
endpoints fail with its Unauthorized error instead. -/
theorem C3_amended_unknown_activity (teachers : Teachers) (reg : Registry)
    (activity_name email : String) (cookie : Option String)
    (hreg : reg.lookup activity_name = none) :
    (∀ u, require_teacher teachers cookie = .ok u →
        signup_for_activity teachers reg activity_name email cookie
          = .error ⟨404, "Activity not found"⟩
        ∧ unregister_from_activity teachers reg activity_name email cookie
          = .ok (none, reg))
    ∧ (∀ e, require_teacher teachers cookie = .error e →
        signup_for_activity teachers reg activity_name email cookie = .error e
        ∧ unregister_from_activity teachers reg activity_name email cookie
          = .error e) := by
  constructor
  · intro u hu
    constructor
    · unfold signup_for_activity
      rw [hu, hreg]
    · unfold unregister_from_activity
      rw [hu]
  · intro e he
    constructor
    · unfold signup_for_activity
      rw [he]
    · unfold unregister_from_activity
      rw [he]

/-- Witness for the amended C3 at concrete inputs. -/
theorem C3_amended_unknown_activity_witness :
    signup_for_activity [("anna", "pw1")] activities "No Such Club"
      "kid@mergington.edu" (some "anna") = .error ⟨404, "Activity not found"⟩
    ∧ unregister_from_activity [("anna", "pw1")] activities "No Such Club"
      "kid@mergington.edu" (some "anna") = .ok (none, activities) :=
  (C3_amended_unknown_activity [("anna", "pw1")] activities "No Such Club"
    "kid@mergington.edu" (some "anna") rfl).1 "anna" rfl

/-- C5 counterexample: the claim says a present cookie whose value IS a
username in the directory passes the guard.  A directory entry with the
empty username falsifies it: Python `not user` is true for the empty
string, so the guard rejects the cookie even though the value is a
username in the directory. -/
theorem C5_counterexample :
    List.lookup "" [("", "pw")] = some "pw"
    ∧ require_teacher [("", "pw")] (some "")
        = .error ⟨401, "Teacher login required"⟩ :=
  ⟨rfl, rfl⟩

/-- C5 (amended): if the session cookie is absent, empty, or names no
teacher, the guard — and with it both mutating endpoints — fails with
Unauthorized (HTTP 401); otherwise the guard returns the cookie's username
as the acting principal. -/
theorem C5_amended_session_guard (teachers : Teachers) (reg : Registry)
    (activity_name email : String) (cookie : Option String) :
    ((cookie = none ∨ cookie = some ""
        ∨ ∃ u, cookie = some u ∧ teachers.lookup u = none) →
      require_teacher teachers cookie = .error ⟨401, "Teacher login required"⟩
      ∧ signup_for_activity teachers reg activity_name email cookie
          = .error ⟨401, "Teacher login required"⟩
      ∧ unregister_from_activity teachers reg activity_name email cookie
          = .error ⟨401, "Teacher login required"⟩)
    ∧ (∀ u, cookie = some u → u ≠ "" → teachers.lookup u ≠ none →
        require_teacher teachers cookie = .ok u) := by
  constructor
  · intro hbad
    have hrt : require_teacher teachers cookie
        = .error ⟨401, "Teacher login required"⟩ := by
      rcases hbad with rfl | rfl | ⟨u, rfl, hu⟩
      · rfl
      · rfl
      · unfold require_teacher
        by_cases hu0 : u = ""
        · subst hu0; rfl
        · simp only [if_neg hu0]
          rw [hu]
    refine ⟨hrt, ?_, ?_⟩
    · unfold signup_for_activity
      rw [hrt]
    · unfold unregister_from_activity
      rw [hrt]
  · intro u hc hne hlk
    subst hc
    unfold require_teacher
    cases hl : teachers.lookup u with
    | none => exact absurd hl hlk
    | some pw =>
      simp only [if_neg hne]
      rw [hl]

/-- Witness for the amended C5: a missing cookie is rejected everywhere,
and a cookie naming teacher anna passes the guard. -/
theorem C5_amended_session_guard_witness :
    (require_teacher [("anna", "pw1")] none
        = .error ⟨401, "Teacher login required"⟩
      ∧ signup_for_activity [("anna", "pw1")] activities "Chess Club"
          "kid@mergington.edu" none = .error ⟨401, "Teacher login required"⟩
      ∧ unregister_from_activity [("anna", "pw1")] activities "Chess Club"
          "kid@mergington.edu" none = .error ⟨401, "Teacher login required"⟩)
    ∧ require_teacher [("anna", "pw1")] (some "anna") = .ok "anna" :=
  ⟨(C5_amended_session_guard [("anna", "pw1")] activities "Chess Club"
      "kid@mergington.edu" none).1 (Or.inl rfl),
   (C5_amended_session_guard [("anna", "pw1")] activities "Chess Club"
      "kid@mergington.edu" (some "anna")).2 "anna" rfl (by decide) (by decide)⟩

/-- C8: logout always returns HTTP 200 with "Logged out", always clears the
session_user cookie (its Lean type is not fallible, mirroring the handler
that can raise nothing), and leaves the activity registry untouched for
every request, with or without a cookie. -/
theorem C8_logout_total :
    logout = ⟨200, "Logged out", true⟩
    ∧ ∀ (teachers : Teachers) (reg : Registry) (cookie : Option String),
        step teachers reg (.logout cookie) = reg :=
  ⟨rfl, fun _ _ _ => rfl⟩

/-- C9: whenever signup or unregister returns an error, the activity
registry after the request is exactly the registry before it (the handlers
mutate only after all checks have passed). -/
theorem C9_error_atomicity (teachers : Teachers) (reg : Registry)
    (activity_name email : String) (cookie : Option String) :
    ((∃ e, signup_for_activity teachers reg activity_name email cookie
          = .error e) →
        step teachers reg (.signup activity_name email cookie) = reg)
    ∧ ((∃ e, unregister_from_activity teachers reg activity_name email cookie
          = .error e) →
        step teachers reg (.unregister activity_name email cookie) = reg) := by
  constructor
  · rintro ⟨e, he⟩
    simp only [step, he]
  · rintro ⟨e, he⟩
    simp only [step, he]

/-- Witness for C9: an authorized signup on an unknown activity errors with
404 and leaves the registry as it was. -/
theorem C9_error_atomicity_witness :
    step [("anna", "pw1")] activities
      (.signup "No Such Club" "kid@mergington.edu" (some "anna")) = activities :=
  (C9_error_atomicity [("anna", "pw1")] activities "No Such Club"
    "kid@mergington.edu" (some "anna")).1 ⟨⟨404, "Activity not found"⟩, rfl⟩

/-- Witness for C7: an activity with max_participants 1 and a full list
still accepts a further signup. -/
theorem C7_capacity_not_enforced_witness :
    signup_for_activity [("anna", "pw1")]
      [("Tiny Club", ⟨"d", "s", 1, ["a@mergington.edu"]⟩)]
      "Tiny Club" "b@mergington.edu" (some "anna")
      = .ok ("Signed up " ++ "b@mergington.edu" ++ " for " ++ "Tiny Club",
          updateReg [("Tiny Club", ⟨"d", "s", 1, ["a@mergington.edu"]⟩)] "Tiny Club"
            ⟨"d", "s", 1, ["a@mergington.edu"] ++ ["b@mergington.edu"]⟩) :=
  C7_capacity_not_enforced [("anna", "pw1")]
    [("Tiny Club", ⟨"d", "s", 1, ["a@mergington.edu"]⟩)]
    "Tiny Club" "b@mergington.edu" (some "anna")
    ⟨"d", "s", 1, ["a@mergington.edu"]⟩ "anna"
    rfl rfl (by decide) (by decide)

/-- The unregister endpoint never changes the registry: its handler body is
empty, so both its error and its success path leave the state alone. -/
theorem unregister_preserves (teachers : Teachers) (reg : Registry)
    (activity_name email : String) (cookie : Option String) :
    step teachers reg (.unregister activity_name email cookie) = reg := by
  simp only [step]
  cases hrt : require_teacher teachers cookie with
  | error e => simp only [unregister_from_activity, hrt]
  | ok u => simp only [unregister_from_activity, hrt]

/-- One request preserves the C6 invariant: the only mutation in the system
is the signup append, which is guarded by the membership check. -/
theorem step_preservesNodup (teachers : Teachers) (reg : Registry) (req : Request)
    (h : RegNodup reg) : RegNodup (step teachers reg req) := by
  cases req with
  | getActivities => exact h
  | login c => exact h
  | logout c => exact h
  | me c => exact h
  | unregister an email cookie =>
    rw [unregister_preserves]
    exact h
  | signup an email cookie =>
    simp only [step]
    cases hs : signup_for_activity teachers reg an email cookie with
    | error e => exact h
    | ok pr =>
      obtain ⟨msg, reg2⟩ := pr
      rcases signup_ok_inv hs with ⟨a, hlk, hm, rfl⟩
      intro p hp
      rcases mem_updateReg hp with rfl | hpold
      · show (a.participants ++ [email]).Nodup
        have ha : a.participants.Nodup := h _ (mem_of_lookup_eq_some hlk)
        rw [← List.concat_eq_append]
        exact List.Nodup.concat hm ha
      · exact h _ hpold

/-- C6: along every trace of requests from a registry in which every
participants list is duplicate-free, every reachable registry keeps every
participants list duplicate-free — no operation ever introduces a
duplicate email. -/
theorem C6_nodup_invariant (teachers : Teachers) (reg0 : Registry)
    (h : RegNodup reg0) (reqs : List Request) :
    RegNodup (reqs.foldl (step teachers) reg0) := by
  induction reqs generalizing reg0 with
  | nil => exact h
  | cons r rs ih => exact ih _ (step_preservesNodup teachers reg0 r h)

/-- Witness for C6: the invariant holds of the initial registry and is
maintained across a concrete trace exercising every kind of request. -/
theorem C6_nodup_invariant_witness :
    RegNodup ([Request.getActivities,
      Request.signup "Chess Club" "new@mergington.edu" (some "anna"),
      Request.login [("username", "anna"), ("password", "pw1")],
      Request.unregister "Chess Club" "daniel@mergington.edu" (some "anna"),
      Request.logout (some "anna"),
      Request.me (some "anna")].foldl (step [("anna", "pw1")]) activities) :=
  C6_nodup_invariant [("anna", "pw1")] activities (by decide) _

/-- Evaluation of login on a two-field credentials dict: the two `dict.get`
calls resolve definitionally. -/
theorem login_eval (teachers : Teachers) (uname pword : String) :
    login teachers [("username", uname), ("password", pword)]
      = match teachers.lookup (pyStrip uname) with
        | some pw =>
          if pw = pword then
            .ok ⟨"Login successful", pyStrip uname, some (pyStrip uname)⟩
          else .error ⟨401, "Invalid credentials"⟩
        | none => .error ⟨401, "Invalid credentials"⟩ := rfl

/-- A list fixed by stripChars is fixed by each of its two dropWhile
passes. -/
theorem stripChars_eq_self {d : List Char} (h : stripChars d = d) :
    d.dropWhile Char.isWhitespace = d
    ∧ d.reverse.dropWhile Char.isWhitespace = d.reverse := by
  have h2 : List.Sublist (d.dropWhile Char.isWhitespace) d := List.dropWhile_sublist _
  have h1 : List.Sublist d (d.dropWhile Char.isWhitespace) := by
    have hs : List.Sublist
        ((d.dropWhile Char.isWhitespace).reverse.dropWhile Char.isWhitespace)
        (d.dropWhile Char.isWhitespace).reverse := List.dropWhile_sublist _
    have hrs := hs.reverse
    rw [List.reverse_reverse] at hrs
    have hstrip : List.Sublist (stripChars d) (d.dropWhile Char.isWhitespace) := hrs
    rw [h] at hstrip
    exact hstrip
  have hd : d.dropWhile Char.isWhitespace = d := h2.antisymm h1
  refine ⟨hd, ?_⟩
  have hrev : stripChars d = (d.reverse.dropWhile Char.isWhitespace).reverse := by
    unfold stripChars
    rw [hd]
  rw [h] at hrev
  have := congrArg List.reverse hrev
  simpa using this.symm

/-- Stripping is unaffected by surrounding all-whitespace padding, provided
the core is already stripped. -/
theorem stripChars_pad (lft d rgt : List Char)
    (hl : ∀ c ∈ lft, c.isWhitespace) (hr : ∀ c ∈ rgt, c.isWhitespace)
    (hc : stripChars d = d) : stripChars (lft ++ d ++ rgt) = d := by
  obtain ⟨h1, h2⟩ := stripChars_eq_self hc
  unfold stripChars
  rw [List.append_assoc, List.dropWhile_append_of_pos hl]
  cases d with
  | nil =>
    have hz : rgt.dropWhile Char.isWhitespace = [] :=
      List.dropWhile_eq_nil_iff.mpr hr
    simp [hz]
  | cons c cs =>
    have hcw : ¬ (c.isWhitespace = true) := by
      have := List.dropWhile_eq_self_iff.mp h1 (by simp)
      simpa using this
    have hd2 : ((c :: cs) ++ rgt).dropWhile Char.isWhitespace = (c :: cs) ++ rgt := by
      rw [List.cons_append, List.dropWhile_cons_of_neg hcw]
    have hww : ∀ x ∈ rgt.reverse, x.isWhitespace :=
      fun x hx => hr x (List.mem_reverse.mp hx)
    rw [hd2, List.reverse_append, List.dropWhile_append_of_pos hww, h2,
      List.reverse_reverse]

/-- String-level form of `stripChars_pad` for Python `str.strip()`. -/
theorem pyStrip_pad (lft u rgt : String)
    (hl : ∀ c ∈ lft.data, c.isWhitespace) (hr : ∀ c ∈ rgt.data, c.isWhitespace)
    (hu : pyStrip u = u) : pyStrip (lft ++ u ++ rgt) = u := by
  have hu2 : stripChars u.data = u.data := congrArg String.data hu
  show (⟨stripChars (lft ++ u ++ rgt).data⟩ : String) = u
  have hdata : (lft ++ u ++ rgt).data = lft.data ++ u.data ++ rgt.data := by
    simp
  rw [hdata, stripChars_pad _ _ _ hl hr hu2]

/-- C4 counterexample: at these explicit inputs the claim fails twice.
The pair (" anna ", "pw1") is not an exact match of any directory entry,
yet login succeeds (the code strips the username first); and with a
directory entry whose username is the empty string, the exactly matching
pair logs in and sets the cookie, yet the identity query with that cookie
reports authenticated=false. -/
theorem C4_counterexample :
    login [("anna", "pw1")] [("username", " anna "), ("password", "pw1")]
      = .ok ⟨"Login successful", "anna", some "anna"⟩
    ∧ login [("", "pw")] [("username", ""), ("password", "pw")]
      = .ok ⟨"Login successful", "", some ""⟩
    ∧ me [("", "pw")] (some "") = ⟨false, none⟩ :=
  ⟨rfl, rfl, rfl⟩

/-- C4 (amended): login succeeds — returning success and setting the
session_user cookie to the whitespace-stripped username — exactly when the
stripped username together with the verbatim password matches a directory
entry; every other pair fails with Unauthorized (HTTP 401) and sets no
cookie (the error carries none).  After a successful login whose stripped
username is nonempty, the identity query with that cookie reports
authenticated=true with that username. -/
theorem C4_amended_login_iff (teachers : Teachers) (uname pword : String) :
    (teachers.lookup (pyStrip uname) = some pword →
      login teachers [("username", uname), ("password", pword)]
        = .ok ⟨"Login successful", pyStrip uname, some (pyStrip uname)⟩
      ∧ (pyStrip uname ≠ "" →
          me teachers (some (pyStrip uname)) = ⟨true, some (pyStrip uname)⟩))
    ∧ (teachers.lookup (pyStrip uname) ≠ some pword →
      login teachers [("username", uname), ("password", pword)]
        = .error ⟨401, "Invalid credentials"⟩) := by
  constructor
  · intro hm
    constructor
    · rw [login_eval, hm]
      simp
    · intro hne
      unfold me
      simp only [if_neg hne]
      rw [hm]
  · intro hm
    rw [login_eval]
    cases hl : teachers.lookup (pyStrip uname) with
    | none => rfl
    | some pw =>
      have hne : ¬ (pw = pword) := fun hh => hm (by rw [hl, hh])
      simp only [if_neg hne]

/-- Witness for the amended C4: correct credentials for teacher anna log in
and /me confirms the identity; a wrong password is rejected. -/
theorem C4_amended_login_iff_witness :
    (login [("anna", "pw1")] [("username", "anna"), ("password", "pw1")]
        = .ok ⟨"Login successful", pyStrip "anna", some (pyStrip "anna")⟩
      ∧ me [("anna", "pw1")] (some (pyStrip "anna"))
        = ⟨true, some (pyStrip "anna")⟩)
    ∧ login [("anna", "pw1")] [("username", "anna"), ("password", "bad")]
        = .error ⟨401, "Invalid credentials"⟩ :=
  ⟨⟨((C4_amended_login_iff [("anna", "pw1")] "anna" "pw1").1 rfl).1,
    ((C4_amended_login_iff [("anna", "pw1")] "anna" "pw1").1 rfl).2 (by decide)⟩,
   (C4_amended_login_iff [("anna", "pw1")] "anna" "bad").2 (by decide)⟩

/-- C10 counterexample: a teacher whose stored username itself carries
trailing whitespace falsifies the claim.  The submitted username
"anna  " differs from the stored "anna " only by surrounding whitespace
(it is the stored name plus one trailing space) and the password is exact,
yet login fails: stripping turns the submitted name into "anna", which is
not a key of the directory. -/
theorem C10_counterexample :
    "anna  " = "anna " ++ " "
    ∧ (∀ c ∈ (" " : String).data, c.isWhitespace)
    ∧ login [("anna ", "pw1")] [("username", "anna  "), ("password", "pw1")]
        = .error ⟨401, "Invalid credentials"⟩ :=
  ⟨rfl, by decide, rfl⟩

/-- C10 (amended): login strips leading and trailing whitespace from the
submitted username but compares the password verbatim.  Hence for every
directory entry whose stored username carries no surrounding whitespace
(it is unchanged by stripping): a login whose username is the stored one
surrounded by extra whitespace and whose password is exact succeeds, while
a login with the exact username and a password padded with surrounding
whitespace (hence different from the stored one) fails with Unauthorized. -/
theorem C10_amended_strip_username (teachers : Teachers)
    (u p lws rws lws2 rws2 : String)
    (hlk : teachers.lookup u = some p)
    (hl : ∀ c ∈ lws.data, c.isWhitespace) (hr : ∀ c ∈ rws.data, c.isWhitespace)
    (hu : pyStrip u = u)
    (hp : lws2 ++ p ++ rws2 ≠ p) :
    login teachers [("username", lws ++ u ++ rws), ("password", p)]
      = .ok ⟨"Login successful", u, some u⟩
    ∧ login teachers [("username", u), ("password", lws2 ++ p ++ rws2)]
      = .error ⟨401, "Invalid credentials"⟩ := by
  constructor
  · rw [login_eval, pyStrip_pad lws u rws hl hr hu, hlk]
    simp
  · have hne : ¬ (p = lws2 ++ p ++ rws2) := fun hh => hp hh.symm
    rw [login_eval, hu, hlk]
    simp only [if_neg hne]

/-- Witness for the amended C10: teacher anna logs in with a
whitespace-padded username and the exact password, and is rejected with
the exact username and a whitespace-padded password. -/
theorem C10_amended_strip_username_witness :
    login [("anna", "pw1")] [("username", " " ++ "anna" ++ " "), ("password", "pw1")]
      = .ok ⟨"Login successful", "anna", some "anna"⟩
    ∧ login [("anna", "pw1")] [("username", "anna"), ("password", "" ++ "pw1" ++ " ")]
      = .error ⟨401, "Invalid credentials"⟩ :=
  C10_amended_strip_username [("anna", "pw1")] "anna" "pw1" " " " " "" " "
    rfl (by decide) (by decide) rfl (by decide)
